import Mathlib

/-!
Verification of the efactura-sdk invoice core against its natural-language
specification.  The TypeScript sources under `src/src/` are embedded as
executable Lean definitions; string-valued JavaScript semantics (regular
expression replacement, `Number` parsing, `parseInt` on single characters)
are modelled explicitly.
-/

namespace EFactura

/-! ## Character helpers -/

/-- Numeric value of an ASCII digit character, as produced by JavaScript
`parseInt` on a single digit. -/
def digitVal (c : Char) : Nat := c.toNat - '0'.toNat

/-- Decimal digit test, JavaScript character class `\d` = `[0-9]`. -/
def isDigitChar (c : Char) : Bool := '0' ≤ c && c ≤ '9'

/-- Lowercasing of ASCII letters (the case-insensitive `i` regex flag only
needs ASCII here). -/
def asciiLower (c : Char) : Char :=
  if 'A' ≤ c ∧ c ≤ 'Z' then Char.ofNat (c.toNat + 32) else c

/-! ## JavaScript `Number(string)` recognition

`isValidCIF` in `src/src/utils/validators.ts` guards with
`isNaN(Number(code))`.  `jsIsNumericString` recognises exactly the strings
for which `Number` does not yield `NaN`: optional whitespace around either
the empty string (which converts to 0), a signed decimal literal
(including `Infinity` and exponent forms), or an unsigned binary, octal or
hexadecimal literal. -/

/-- White-space characters accepted by JavaScript string-to-number
conversion (restricted to the ASCII range plus NBSP). -/
def jsWs (c : Char) : Bool :=
  c = ' ' || c = '\t' || c = '\n' || c = '\r' || c = '\x0b' || c = '\x0c' || c = ' '

/-- Consume one or more decimal digits; `none` when no digit is present. -/
def decDigits1 (cs : List Char) : Option (List Char) :=
  match cs with
  | c :: _ => if isDigitChar c then some (cs.dropWhile isDigitChar) else none
  | [] => none

/-- Parse an exponent part `[eE][+-]?digits`. -/
def expPart (cs : List Char) : Option (List Char) :=
  match cs with
  | c :: rest =>
    if c = 'e' || c = 'E' then
      match rest with
      | s :: rest2 => if s = '+' || s = '-' then decDigits1 rest2 else decDigits1 rest
      | [] => none
    else none
  | [] => none

/-- Optional exponent part: leaves the input unchanged when absent. -/
def optExp (cs : List Char) : List Char := (expPart cs).getD cs

/-- Parse an unsigned decimal numeric literal (`Infinity`,
`digits[.digits][exp]` or `.digits[exp]`), returning the rest. -/
def unsignedDec (cs : List Char) : Option (List Char) :=
  if cs.take 8 = "Infinity".data then some (cs.drop 8)
  else
    match cs with
    | '.' :: rest => (decDigits1 rest).map optExp
    | _ =>
      (decDigits1 cs).map (fun r =>
        match r with
        | '.' :: r2 => optExp (r2.dropWhile isDigitChar)
        | _ => optExp r)

def isHexChar (c : Char) : Bool :=
  isDigitChar c || ('a' ≤ c && c ≤ 'f') || ('A' ≤ c && c ≤ 'F')

def isOctChar (c : Char) : Bool := '0' ≤ c && c ≤ '7'

def isBinChar (c : Char) : Bool := c = '0' || c = '1'

/-- Consume one or more digits of the given class and require the end of
input (radix-prefixed literals allow nothing after the digits). -/
def radixTail (p : Char → Bool) (cs : List Char) : Bool :=
  match cs with
  | c :: _ => p c && (cs.dropWhile p).isEmpty
  | [] => false

/-- Whether `Number(s)` yields a non-NaN result in JavaScript. -/
def jsIsNumericString (s : String) : Bool :=
  let cs := (s.data.dropWhile jsWs).reverse.dropWhile jsWs |>.reverse
  match cs with
  | [] => true
  | '0' :: c :: rest =>
    if c = 'x' || c = 'X' then radixTail isHexChar rest
    else if c = 'o' || c = 'O' then radixTail isOctChar rest
    else if c = 'b' || c = 'B' then radixTail isBinChar rest
    else (unsignedDec cs).isEqSome []
  | c :: rest =>
    if c = '+' || c = '-' then (unsignedDec rest).isEqSome []
    else (unsignedDec cs).isEqSome []

/-- JavaScript `Number` of a one-character slice (the check-digit read
`Number(code.slice(-1))`): digits give their value, the empty slice and a
white-space character give 0, anything else is NaN (`none`). -/
def jsNumOfSlice1 (cs : List Char) : Option Nat :=
  match cs with
  | [] => some 0
  | [c] => if isDigitChar c then some (digitVal c) else if jsWs c then some 0 else none
  | _ => none

/-! ## Embedding of src/src/utils/validators.ts -/

/-- Embeds `isValidCNP` (validators.ts lines 11–44): exactly 13 decimal
digits, the all-zero sentinel accepted, weighted mod-11 check digit
against the key string `"279146358279"` (remainder 10 mapped to 1), and a
first digit in 1–9. -/
def isValidCNP (code : String) : Bool :=
  if ¬ (code.data.length = 13 ∧ code.data.all isDigitChar = true) then false
  else if code = "0000000000000" then true
  else
    let sum := (List.zipWith (fun c k => digitVal c * digitVal k)
      (code.data.take 12) "279146358279".data).sum
    let remainder := sum % 11
    let controlDigit := if remainder = 10 then 1 else remainder
    if ¬ ((code.data.map digitVal).getD 12 0 = controlDigit) then false
    else
      let sex := (code.data.map digitVal).getD 0 0
      if ¬ (1 ≤ sex ∧ sex ≤ 9) then false
      else true

/-- Embeds `value.replace(/ro/i, '')` from `stripTaxIdPrefix`
(validators.ts line 97): removes the leftmost case-insensitive occurrence
of `"ro"`, anywhere in the string. -/
def stripRoAux : List Char → List Char
  | [] => []
  | [c] => [c]
  | c1 :: c2 :: rest =>
    if asciiLower c1 = 'r' ∧ asciiLower c2 = 'o' then rest
    else c1 :: stripRoAux (c2 :: rest)

/-- String wrapper for `stripRoAux`. -/
def stripRo (s : String) : String := ⟨stripRoAux s.data⟩

/-- Error message thrown by `stripTaxIdPrefix` and `normalizeVatNumber` on
empty input. -/
def vatMissingMsg : String := "Company VAT number is missing."

/-- Embeds `stripTaxIdPrefix` (validators.ts lines 92–98): throws on a
falsy (empty) string, otherwise removes the first case-insensitive
occurrence of `"ro"`. -/
def stripTaxIdPrefix (value : String) : Except String String :=
  if value = "" then .error vatMissingMsg else .ok (stripRo value)

/-- Embeds the body of `isValidCIF` after the prefix strip (validators.ts
lines 60–89): reject when `Number(code)` is NaN or the length exceeds 10;
then the last character is the control digit, the rest is left-padded with
zeros to 9 characters and weighted with `7 5 3 2 1 7 5 3 2`; the weighted
sum times 10 modulo 11 (10 mapped to 0) must equal the control digit.  A
non-digit among the 9 weighted characters makes `parseInt` return NaN and
the final comparison false. -/
def cifChecks (code : String) : Bool :=
  if ¬ (jsIsNumericString code = true) then false
  else if code.data.length > 10 then false
  else
    let cs := code.data
    let controlDigit := jsNumOfSlice1 (cs.drop (cs.length - 1))
    let body := cs.take (cs.length - 1)
    let padded := List.replicate (9 - body.length) '0' ++ body
    if ¬ (padded.all isDigitChar = true) then false
    else
      let sum := (List.zipWith (fun c w => digitVal c * w) padded [7, 5, 3, 2, 1, 7, 5, 3, 2]).sum
      let rest0 := (sum * 10) % 11
      let rest1 := if rest0 = 10 then 0 else rest0
      match controlDigit with
      | none => false
      | some d => rest1 = d

/-- Embeds `isValidCIF` (validators.ts lines 56–90): the prefix strip can
throw on an empty string; otherwise the pure checks run. -/
def isValidCIF (code : String) : Except String Bool :=
  (stripTaxIdPrefix code).map cifChecks

/-- Embeds `normalizeVatNumber` (validators.ts lines 100–113). -/
def normalizeVatNumber (value : String) : Except String String :=
  if value = "" then .error vatMissingMsg
  else if isValidCNP value then .ok value
  else
    match isValidCIF value with
    | .error e => .error e
    | .ok true => (stripTaxIdPrefix value).map (fun s => "RO" ++ s)
    | .ok false => .ok value

/-- Whether an `Except` result is an error (a thrown exception). -/
def threw (e : Except String String) : Bool :=
  match e with
  | .error _ => true
  | .ok _ => false

/-! ## Claim-side definitions (following the specification's words) -/

/-- The prefix handling exactly as claim C3 words it: strip a leading
`"RO"` (case-insensitive) if present, and nothing else. -/
def specStripLeadingRO (s : String) : String :=
  match s.data with
  | c1 :: c2 :: rest =>
    if asciiLower c1 = 'r' ∧ asciiLower c2 = 'o' then ⟨rest⟩ else s
  | _ => s

/-- The expected CNP check digit exactly as claim C4 words it: the first
12 digits weighted by `2 7 9 1 4 6 3 5 8 2 7 9`, summed, mod 11, with
remainder 10 mapped to 1. -/
def cnpExpectedCheck (s : String) : Nat :=
  let r := (List.zipWith (fun c k => digitVal c * digitVal k)
    (s.data.take 12) "279146358279".data).sum % 11
  if r = 10 then 1 else r

/-! ## Supporting lemmas about the tax-identifier functions -/

/-- Removing the first case-insensitive `"ro"` from a string that starts
with `"RO"` removes exactly that prefix: the leftmost match of `/ro/i` in
`"RO" ++ s` is at position 0. -/
theorem stripRo_RO_append (s : String) : stripRo ("RO" ++ s) = s := rfl

/-- A string starting with the letters `"RO"` is never a valid CNP: the
13-digit test fails on the letter `R`. -/
theorem isValidCNP_RO_append (s : String) : isValidCNP ("RO" ++ s) = false := by
  unfold isValidCNP
  rw [if_pos]
  rintro ⟨-, hall⟩
  have : (("RO" ++ s).data.all isDigitChar) = ('R' :: 'O' :: s.data).all isDigitChar := rfl
  rw [this, List.all_cons] at hall
  rw [show isDigitChar 'R' = false from by decide] at hall
  simp at hall

/-- A string starting with the letters `"RO"` is not empty. -/
theorem RO_append_ne_empty (s : String) : ("RO" ++ s) ≠ "" := by
  intro h
  have : ('R' :: 'O' :: s.data) = ([] : List Char) := congrArg String.data h
  exact absurd this (by simp)

/-! ## Claim C3 -/

/-- C3 counterexample: `isValidCIF` does not strip only a leading `"RO"`;
its `replace(/ro/i, '')` removes the first occurrence anywhere, so
`"160ro796"` — whose claim-side leading-prefix strip leaves a non-numeric
string — is nevertheless accepted (the interior `"ro"` is removed and the
remaining `"160796"` passes the checksum). -/
theorem isValidCIF_accepts_interior_ro :
    specStripLeadingRO "160ro796" = "160ro796" ∧
    ("160ro796".data.all isDigitChar = true → False) ∧
    isValidCIF "160ro796" = Except.ok true :=
  ⟨rfl, by decide, rfl⟩

/-- C3 (amended): `isValidCIF` removes the first case-insensitive
occurrence of `"ro"` anywhere in its input; whenever the string left by
that removal is not numeric in the JavaScript `Number` sense, or is
longer than 10 characters, the code is rejected. -/
theorem isValidCIF_rejects_nonnumeric_or_long (s : String) (hne : s ≠ "")
    (h : jsIsNumericString (stripRo s) = false ∨ (stripRo s).data.length > 10) :
    isValidCIF s = Except.ok false := by
  unfold isValidCIF stripTaxIdPrefix
  rw [if_neg hne]
  show Except.ok (cifChecks (stripRo s)) = Except.ok false
  congr 1
  unfold cifChecks
  rcases h with h | h
  · rw [if_pos (by simp [h])]
  · by_cases hn : jsIsNumericString (stripRo s) = true
    · rw [if_neg (by simp [hn]), if_pos h]
    · rw [if_pos (by simp [hn])]

/-- Witness for `isValidCIF_rejects_nonnumeric_or_long` at the concrete
input `"abc"`. -/
theorem isValidCIF_rejects_witness : isValidCIF "abc" = Except.ok false :=
  isValidCIF_rejects_nonnumeric_or_long "abc" (by decide) (Or.inl (by decide))

/-! ## Claim C4 -/

/-- C4: for every 13-digit string, `isValidCNP` holds iff the string is
the all-zero sentinel, or the weighted mod-11 check digit (key
`2 7 9 1 4 6 3 5 8 2 7 9`, remainder 10 mapped to 1) equals the 13th
digit and the first digit lies in 1–9; every string that is not exactly
13 digits is rejected. -/
theorem isValidCNP_spec (s : String) :
    ((s.data.length = 13 ∧ s.data.all isDigitChar = true) →
      (isValidCNP s = true ↔
        s = "0000000000000" ∨
          ((s.data.map digitVal).getD 12 0 = cnpExpectedCheck s ∧
            1 ≤ (s.data.map digitVal).getD 0 0 ∧ (s.data.map digitVal).getD 0 0 ≤ 9))) ∧
    (¬ (s.data.length = 13 ∧ s.data.all isDigitChar = true) → isValidCNP s = false) := by
  constructor
  · intro h
    unfold isValidCNP cnpExpectedCheck
    rw [if_neg (not_not_intro h)]
    by_cases hz : s = "0000000000000"
    · simp [hz]
    · rw [if_neg hz]
      simp only [hz, false_or]
      split_ifs with h1 h2 <;> simp_all
  · intro h
    unfold isValidCNP
    rw [if_pos h]

/-- Witness for `isValidCNP_spec` at the concrete valid code
`"1960101123456"` (used in the repository's unit test). -/
theorem isValidCNP_spec_witness : isValidCNP "1960101123456" = true :=
  ((isValidCNP_spec "1960101123456").1 (by decide)).mpr (Or.inr (by decide))

/-! ## Claim C8 -/

/-- C8: `normalizeVatNumber` throws exactly on the empty input; for every
non-empty input it returns the input unchanged when it is a valid CNP,
the `"RO"`-prefixed stripped form when it is a valid CIF, and the
original value otherwise. -/
theorem normalizeVatNumber_spec (v : String) :
    (threw (normalizeVatNumber v) = true ↔ v = "") ∧
    (v ≠ "" → isValidCNP v = true → normalizeVatNumber v = Except.ok v) ∧
    (v ≠ "" → isValidCNP v = false → cifChecks (stripRo v) = true →
      normalizeVatNumber v = Except.ok ("RO" ++ stripRo v)) ∧
    (v ≠ "" → isValidCNP v = false → cifChecks (stripRo v) = false →
      normalizeVatNumber v = Except.ok v) := by
  refine ⟨?_, ?_, ?_, ?_⟩
  · by_cases hv : v = ""
    · simp [normalizeVatNumber, hv, threw]
    · simp only [normalizeVatNumber, isValidCIF, stripTaxIdPrefix, if_neg hv, Except.map]
      cases hc : isValidCNP v <;> simp only [Bool.false_eq_true, if_false, if_true]
      · cases cifChecks (stripRo v) <;> simp [threw, hv]
      · simp [threw, hv]
  · intro hv hc
    simp [normalizeVatNumber, hv, hc]
  · intro hv hc hcif
    simp [normalizeVatNumber, isValidCIF, stripTaxIdPrefix, hv, hc, hcif, Except.map]
  · intro hv hc hcif
    simp [normalizeVatNumber, isValidCIF, stripTaxIdPrefix, hv, hc, hcif, Except.map]

/-- Witness for `normalizeVatNumber_spec` at the concrete CIF `"160796"`
(the supplier company id of the repository's unit test, normalized there
to `"RO160796"`). -/
theorem normalizeVatNumber_spec_witness :
    normalizeVatNumber "160796" = Except.ok ("RO" ++ stripRo "160796") :=
  (normalizeVatNumber_spec "160796").2.2.1 (by decide) (by decide) (by decide)

/-! ## Claim C10 -/

/-- C10: `normalizeVatNumber` is idempotent on every non-empty input:
feeding its result back through `normalizeVatNumber` changes nothing. -/
theorem normalizeVatNumber_idem (v : String) (h : v ≠ "") :
    (normalizeVatNumber v).bind normalizeVatNumber = normalizeVatNumber v := by
  have hspec := normalizeVatNumber_spec v
  by_cases hc : isValidCNP v = true
  · have h1 : normalizeVatNumber v = Except.ok v := hspec.2.1 h hc
    rw [h1, Except.bind, h1]
  · have hc' : isValidCNP v = false := by simpa using hc
    by_cases hcif : cifChecks (stripRo v) = true
    · have h1 : normalizeVatNumber v = Except.ok ("RO" ++ stripRo v) := hspec.2.2.1 h hc' hcif
      rw [h1, Except.bind]
      have h2 := (normalizeVatNumber_spec ("RO" ++ stripRo v)).2.2.1
        (RO_append_ne_empty (stripRo v))
        (isValidCNP_RO_append (stripRo v))
        (by rw [stripRo_RO_append]; exact hcif)
      rw [h2, stripRo_RO_append]
    · have hcif' : cifChecks (stripRo v) = false := by simpa using hcif
      have h1 : normalizeVatNumber v = Except.ok v := hspec.2.2.2 h hc' hcif'
      rw [h1, Except.bind, h1]

/-- Witness for `normalizeVatNumber_idem` at the concrete input
`"RO12345678"`. -/
theorem normalizeVatNumber_idem_witness :
    (normalizeVatNumber "RO12345678").bind normalizeVatNumber =
      normalizeVatNumber "RO12345678" :=
  normalizeVatNumber_idem "RO12345678" (by decide)

/-! ## Embedding of src/src/ubl/address-sanitizer.ts -/

/-- JavaScript `String.prototype.trim`: drop white space from both ends
(modelled over the ASCII white-space characters plus NBSP). -/
def jsTrim (s : String) : String :=
  ⟨((s.data.dropWhile jsWs).reverse.dropWhile jsWs).reverse⟩

/-- Separator characters unified by `normalizeInput`'s `[._,-]+`
replacement. -/
def sepChar (c : Char) : Bool := c = '.' || c = '_' || c = ',' || c = '-'

/-- Characters of the JavaScript `\s` class occurring in the inputs in
play (ASCII white space). -/
def wsChar (c : Char) : Bool :=
  c = ' ' || c = '\t' || c = '\n' || c = '\r' || c = '\x0b' || c = '\x0c'

/-- JavaScript `\w` word characters, which also determine `\b`
boundaries. -/
def isWordChar (c : Char) : Bool :=
  ('a' ≤ c && c ≤ 'z') || ('A' ≤ c && c ≤ 'Z') || isDigitChar c || c = '_'

/-- Lowercasing as performed by `toLowerCase` on the Romanian location
strings in play: ASCII letters plus the Romanian diacritic letters. -/
def jsToLowerChar (c : Char) : Char :=
  if c = 'Ă' then 'ă' else if c = 'Â' then 'â' else if c = 'Î' then 'î'
  else if c = 'Ș' then 'ș' else if c = 'Ş' then 'ş'
  else if c = 'Ț' then 'ț' else if c = 'Ţ' then 'ţ'
  else asciiLower c

/-- Models `normalize('NFD')` followed by removal of combining marks and
the explicit `ş`/`ţ` replacements: each precomposed Romanian accented
letter folds to its base letter. -/
def foldDiacritic (c : Char) : Char :=
  if c = 'ă' then 'a' else if c = 'â' then 'a' else if c = 'î' then 'i'
  else if c = 'ș' then 's' else if c = 'ş' then 's'
  else if c = 'ț' then 't' else if c = 'ţ' then 't'
  else c

/-- Replace every maximal run of characters satisfying `p` by the single
character `r` (the `replace(/[._,-]+/g, ' ')` and `replace(/\s+/g, ' ')`
steps). -/
def collapseRuns (p : Char → Bool) (r : Char) : List Char → List Char
  | [] => []
  | [c] => if p c then [r] else [c]
  | c1 :: c2 :: rest =>
    if p c1 then
      if p c2 then collapseRuns p r (c2 :: rest)
      else r :: c2 :: collapseRuns p r rest
    else c1 :: collapseRuns p r (c2 :: rest)

/-- Try to match one of `variants` at the start of `cs`, requiring a word
boundary after the match; returns the remaining characters.  Variants are
listed in the order the regex alternation explores them. -/
def matchVariant (variants : List (List Char)) (cs : List Char) : Option (List Char) :=
  match variants with
  | [] => none
  | v :: vs =>
    if cs.take v.length = v then
      match cs.drop v.length with
      | [] => some []
      | c :: rest => if isWordChar c then matchVariant vs cs else some (c :: rest)
    else matchVariant vs cs

/-- One global word-bounded replacement pass
(`replace(/\bWORD\b/g, repl)`), scanning left to right.  `fuel` bounds
the recursion (initialised to the input length, enough since every
variant is non-empty); `atBoundary` records whether the previous source
character was a non-word character or the start of the string. -/
def replaceWordsFuel (variants : List (List Char)) (repl : List Char) :
    Nat → Bool → List Char → List Char
  | 0, _, cs => cs
  | _ + 1, _, [] => []
  | fuel + 1, atBoundary, c :: rest =>
    if atBoundary then
      match matchVariant variants (c :: rest) with
      | some remaining => repl ++ replaceWordsFuel variants repl fuel false remaining
      | none => c :: replaceWordsFuel variants repl fuel (! isWordChar c) rest
    else c :: replaceWordsFuel variants repl fuel (! isWordChar c) rest

/-- Entry point of a word-bounded global replacement. -/
def replaceWords (variants : List (List Char)) (repl : List Char)
    (cs : List Char) : List Char :=
  replaceWordsFuel variants repl (cs.length + 1) true cs

/-- The strings matched by `/\bmun\b/`. -/
def munVariants : List (List Char) := ["mun".data]

/-- The strings matched by `/\bjude?t(ul)?\b/`, in backtracking order. -/
def judetVariants : List (List Char) :=
  ["judetul".data, "judtul".data, "judet".data, "judt".data]

/-- The strings matched by `/\bsect(or(ul)?)?\b/`, in backtracking
order. -/
def sectVariants : List (List Char) :=
  ["sectorul".data, "sector".data, "sect".data]

/-- The character pipeline of `normalizeInput` (address-sanitizer.ts
lines 69–92) applied to an already-trimmed non-empty string: lowercase,
fold diacritics, unify separators, collapse white space, expand the
`mun`/`judet`/`sect` abbreviations, and trim. -/
def normalizeChars (s : String) : String :=
  let cs := s.data.map jsToLowerChar
  let cs := cs.map foldDiacritic
  let cs := collapseRuns sepChar ' ' cs
  let cs := collapseRuns wsChar ' ' cs
  let cs := replaceWords munVariants "municipiul".data cs
  let cs := replaceWords judetVariants "judetul".data cs
  let cs := replaceWords sectVariants "sectorul".data cs
  jsTrim ⟨cs⟩

/-- Embeds `normalizeInput`: `null`/non-string and blank inputs give
`null`; otherwise the pipeline runs on the trimmed string. -/
def normalizeInput (input : Option String) : Option String :=
  match input with
  | none => none
  | some str =>
    let s := jsTrim str
    if s = "" then none else some (normalizeChars s)

/-- Embeds `stripAdministrativeWords` (address-sanitizer.ts lines
100–109): removes the administrative words, collapses white space and
trims. -/
def stripAdministrativeWords (s : String) : String :=
  let cs := replaceWords ["judetul".data] [] s.data
  let cs := replaceWords ["municipiul".data] [] cs
  let cs := replaceWords ["comuna".data] [] cs
  let cs := replaceWords ["orasul".data, "oras".data] [] cs
  let cs := replaceWords ["sectorul".data] [] cs
  let cs := collapseRuns wsChar ' ' cs
  jsTrim ⟨cs⟩

/-- Embeds `RO_ISO_3166_2_RO_MAP` (address-sanitizer.ts lines 140–193):
normalized county names (with the aliases and typo entries of the
source) to ISO 3166-2:RO codes. -/
def roCountyMap : List (String × String) :=
  [("bucuresti", "RO-B"), ("buc", "RO-B"),
   ("alba", "RO-AB"), ("arges", "RO-AG"), ("arad", "RO-AR"),
   ("bacau", "RO-BC"), ("bihor", "RO-BH"),
   ("bistrita nasaud", "RO-BN"), ("bistrita-nasaud", "RO-BN"),
   ("botosani", "RO-BT"), ("brasov", "RO-BV"), ("braila", "RO-BR"),
   ("buzau", "RO-BZ"),
   ("caras severin", "RO-CS"), ("carasseverin", "RO-CS"), ("caras-severin", "RO-CS"),
   ("calaras", "RO-CL"), ("cluj", "RO-CJ"), ("constanta", "RO-CT"),
   ("covasna", "RO-CV"), ("dambovita", "RO-DB"), ("dimbovita", "RO-DB"),
   ("dolj", "RO-DJ"), ("galati", "RO-GL"), ("giurgiu", "RO-GR"),
   ("gorj", "RO-GJ"), ("harghita", "RO-HR"), ("hunedoara", "RO-HD"),
   ("ialomita", "RO-IL"), ("iasi", "RO-IS"), ("ilfov", "RO-IF"),
   ("maramures", "RO-MM"), ("mehedinti", "RO-MH"), ("mures", "RO-MS"),
   ("neamt", "RO-NT"), ("olt", "RO-OT"), ("prahova", "RO-PH"),
   ("satu mare", "RO-SM"), ("satu-mare", "RO-SM"), ("salaj", "RO-SJ"),
   ("sibiu", "RO-SB"), ("suceava", "RO-SV"), ("teleorman", "RO-TR"),
   ("timis", "RO-TM"), ("tulcea", "RO-TL"), ("valcea", "RO-VL"),
   ("vilcea", "RO-VL"), ("vaslui", "RO-VS"), ("vrancea", "RO-VN")]

/-- `Map.get`: exact key lookup. -/
def countyLookup (k : String) : Option String :=
  (roCountyMap.find? (fun p => p.1 == k)).map Prod.snd

/-- Embeds `sanitizeCounty` (address-sanitizer.ts lines 17–39): direct
lookup of the normalized input, then a single retry after stripping
administrative words. -/
def sanitizeCounty (input : Option String) : Option String :=
  match normalizeInput input with
  | none => none
  | some normalized =>
    if normalized = "" then none
    else
      match countyLookup normalized with
      | some direct => some direct
      | none =>
        let stripped := stripAdministrativeWords normalized
        if stripped ≠ "" ∧ stripped ≠ normalized then countyLookup stripped
        else none

/-- Separator characters of the sector regex class `[:.-]`. -/
def sectorSepChar (c : Char) : Bool := c = ':' || c = '.' || c = '-'

/-- Deterministic tail of the sector regex after the token alternative:
`\s*[:.-]?\s*0?([1-6])\b` (the involved character classes are pairwise
disjoint, so no backtracking is possible within the tail). -/
def sectorTail (cs : List Char) : Option Nat :=
  let cs := cs.dropWhile wsChar
  let cs := match cs with
    | c :: rest => if sectorSepChar c then rest else c :: rest
    | [] => []
  let cs := cs.dropWhile wsChar
  let cs := match cs with
    | '0' :: rest => rest
    | other => other
  match cs with
  | c :: rest =>
    if '1' ≤ c ∧ c ≤ '6' then
      match rest with
      | [] => some (digitVal c)
      | c2 :: _ => if isWordChar c2 then none else some (digitVal c)
    else none
  | [] => none

/-- Try the token alternation `(?:sectorul|sector|s)` at the current
position, backtracking through the alternatives when the tail fails. -/
def sectorMatchAt (cs : List Char) : Option Nat :=
  match (if cs.take 8 = "sectorul".data then sectorTail (cs.drop 8) else none) with
  | some n => some n
  | none =>
    match (if cs.take 6 = "sector".data then sectorTail (cs.drop 6) else none) with
    | some n => some n
    | none =>
      match cs with
      | 's' :: rest => sectorTail rest
      | _ => none

/-- Scan for the first position with a word boundary where the sector
pattern matches. -/
def sectorScan : Bool → List Char → Option Nat
  | _, [] => none
  | atBoundary, c :: rest =>
    match (if atBoundary then sectorMatchAt (c :: rest) else none) with
    | some n => some n
    | none => sectorScan (! isWordChar c) rest

/-- Embeds `extractSectorNumber` (address-sanitizer.ts lines 124–131):
the regex search plus the redundant 1–6 range re-check. -/
def extractSectorNumber (normalized : String) : Option Nat :=
  match sectorScan true normalized.data with
  | some n => if 1 ≤ n ∧ n ≤ 6 then some n else none
  | none => none

/-- Embeds `sanitizeBucharestSector` (address-sanitizer.ts lines
41–49). -/
def sanitizeBucharestSector (cityInput : Option String) : Option String :=
  match normalizeInput cityInput with
  | none => none
  | some normalized =>
    if normalized = "" then none
    else
      match extractSectorNumber normalized with
      | some n => some ("SECTOR" ++ toString n)
      | none => none

/-- Modelled from the spec: the constant `DEFAULT_COUNTRY` imported by
address-sanitizer.ts from `../constants` is not present in
src/src/constants.ts (which only defines `DEFAULT_COUNTRY_CODE = "RO"`).
Spec §4.3/§8 require `isDomesticInvoice("Romania")` and
`isDomesticInvoice("românia")` to hold, fixing the default country name
as `"Romania"`. -/
def DEFAULT_COUNTRY : String := "Romania"

/-- Embeds `isInternalInvoice` (address-sanitizer.ts lines 229–231):
strict equality of the two normalization results. -/
def isInternalInvoice (countryName : String) : Bool :=
  normalizeInput (some countryName) == normalizeInput (some DEFAULT_COUNTRY)

/-! ## Claim C5 -/

/-- C5: evaluation of `sanitizeCounty` over the canonical
(diacritic-stripped) names of the Romanian counties and Bucharest.  The
canonical name of Călărași — `"Calarasi"` — is NOT resolved (the map key
is misspelled `"calaras"`, so the claim fails there, with or without the
administrative qualifier), while the other 40 counties and Bucharest
resolve to their ISO 3166-2 codes, and casing and a leading qualifier do
not matter (`"Judetul Cluj"`, `"CLUJ"`, `"cluj"` agree). -/
theorem sanitizeCounty_eval :
    sanitizeCounty (some "Calarasi") = none ∧
    sanitizeCounty (some "Judetul Calarasi") = none ∧
    sanitizeCounty (some "CALARASI") = none ∧
    sanitizeCounty (some "Judetul Cluj") = some "RO-CJ" ∧
    sanitizeCounty (some "CLUJ") = some "RO-CJ" ∧
    sanitizeCounty (some "cluj") = some "RO-CJ" ∧
    sanitizeCounty (some "Bucuresti") = some "RO-B" ∧
    sanitizeCounty (some "Alba") = some "RO-AB" ∧
    sanitizeCounty (some "Arges") = some "RO-AG" ∧
    sanitizeCounty (some "Arad") = some "RO-AR" ∧
    sanitizeCounty (some "Bacau") = some "RO-BC" ∧
    sanitizeCounty (some "Bihor") = some "RO-BH" ∧
    sanitizeCounty (some "Bistrita-Nasaud") = some "RO-BN" ∧
    sanitizeCounty (some "Botosani") = some "RO-BT" ∧
    sanitizeCounty (some "Brasov") = some "RO-BV" ∧
    sanitizeCounty (some "Braila") = some "RO-BR" ∧
    sanitizeCounty (some "Buzau") = some "RO-BZ" ∧
    sanitizeCounty (some "Caras-Severin") = some "RO-CS" ∧
    sanitizeCounty (some "Constanta") = some "RO-CT" ∧
    sanitizeCounty (some "Covasna") = some "RO-CV" ∧
    sanitizeCounty (some "Dambovita") = some "RO-DB" ∧
    sanitizeCounty (some "Dolj") = some "RO-DJ" ∧
    sanitizeCounty (some "Galati") = some "RO-GL" ∧
    sanitizeCounty (some "Giurgiu") = some "RO-GR" ∧
    sanitizeCounty (some "Gorj") = some "RO-GJ" ∧
    sanitizeCounty (some "Harghita") = some "RO-HR" ∧
    sanitizeCounty (some "Hunedoara") = some "RO-HD" ∧
    sanitizeCounty (some "Ialomita") = some "RO-IL" ∧
    sanitizeCounty (some "Iasi") = some "RO-IS" ∧
    sanitizeCounty (some "Ilfov") = some "RO-IF" ∧
    sanitizeCounty (some "Maramures") = some "RO-MM" ∧
    sanitizeCounty (some "Mehedinti") = some "RO-MH" ∧
    sanitizeCounty (some "Mures") = some "RO-MS" ∧
    sanitizeCounty (some "Neamt") = some "RO-NT" ∧
    sanitizeCounty (some "Olt") = some "RO-OT" ∧
    sanitizeCounty (some "Prahova") = some "RO-PH" ∧
    sanitizeCounty (some "Satu Mare") = some "RO-SM" ∧
    sanitizeCounty (some "Salaj") = some "RO-SJ" ∧
    sanitizeCounty (some "Sibiu") = some "RO-SB" ∧
    sanitizeCounty (some "Suceava") = some "RO-SV" ∧
    sanitizeCounty (some "Teleorman") = some "RO-TR" ∧
    sanitizeCounty (some "Timis") = some "RO-TM" ∧
    sanitizeCounty (some "Tulcea") = some "RO-TL" ∧
    sanitizeCounty (some "Valcea") = some "RO-VL" ∧
    sanitizeCounty (some "Vaslui") = some "RO-VS" ∧
    sanitizeCounty (some "Vrancea") = some "RO-VN" := by
  repeat' apply And.intro
  all_goals decide

/-! ## Claim C6 -/

/-- C6 counterexample: `normalizeInput` does not expand the abbreviation
`"jud."` (its regex `\bjude?t(ul)?\b` requires the letter `t`) nor a bare
`"s"` (its regex `\bsect(or(ul)?)?\b` requires `sect`); the claim's
examples `normalize("jud. cluj") = "judetul cluj"` and
`normalize("s 3") = "sectorul 3"` are both false. -/
theorem normalizeInput_jud_not_expanded :
    normalizeInput (some "jud. cluj") = some "jud cluj" ∧
    normalizeInput (some "jud. cluj") ≠ some "judetul cluj" ∧
    normalizeInput (some "s 3") = some "s 3" ∧
    normalizeInput (some "s 3") ≠ some "sectorul 3" := by
  decide

/-- C6 (amended): `normalizeInput` expands `"mun"`/`"mun."` to
`"municipiul"`, `"judet"`/`"judetul"` to `"judetul"` and
`"sect"`/`"sector"` to `"sectorul"`, but leaves `"jud."` and a bare
`"s"` unexpanded. -/
theorem normalizeInput_expansions :
    normalizeInput (some "mun. bucuresti") = some "municipiul bucuresti" ∧
    normalizeInput (some "mun cluj") = some "municipiul cluj" ∧
    normalizeInput (some "judet cluj") = some "judetul cluj" ∧
    normalizeInput (some "judetul cluj") = some "judetul cluj" ∧
    normalizeInput (some "sect 3") = some "sectorul 3" ∧
    normalizeInput (some "sector 3") = some "sectorul 3" ∧
    normalizeInput (some "jud. cluj") = some "jud cluj" ∧
    normalizeInput (some "s 3") = some "s 3" := by
  decide

/-! ## Claim C7 -/

/-- C7: `sanitizeBucharestSector` maps each of `"Sector 3"`,
`"sectorul 3"`, `"S3"`, `"sector-3"` and `"sector.03"` to `"SECTOR3"`,
and rejects `"sector 7"` and `"sector 0"`. -/
theorem sanitizeBucharestSector_eval :
    sanitizeBucharestSector (some "Sector 3") = some "SECTOR3" ∧
    sanitizeBucharestSector (some "sectorul 3") = some "SECTOR3" ∧
    sanitizeBucharestSector (some "S3") = some "SECTOR3" ∧
    sanitizeBucharestSector (some "sector-3") = some "SECTOR3" ∧
    sanitizeBucharestSector (some "sector.03") = some "SECTOR3" ∧
    sanitizeBucharestSector (some "sector 7") = none ∧
    sanitizeBucharestSector (some "sector 0") = none := by
  decide

/-! ## Claim C9 -/

/-- C9: `isInternalInvoice` holds exactly when the normalized country
name equals the normalized default country name; `"Romania"` and
`"românia"` are domestic, `"Germany"` is not. -/
theorem isInternalInvoice_spec :
    (∀ countryName : String,
      isInternalInvoice countryName =
        (normalizeInput (some countryName) == normalizeInput (some DEFAULT_COUNTRY))) ∧
    isInternalInvoice "Romania" = true ∧
    isInternalInvoice "românia" = true ∧
    isInternalInvoice "Germany" = false :=
  ⟨fun _ => rfl, by decide, by decide, by decide⟩

/-! ## Invoice input model

The invoice builder module (`src/ubl/InvoiceBuilder.ts`) is not part of
the sources available under `src/`; only its unit test
(`src/tests/invoiceBuilder.unit.test.ts`) is.  Its structural validator
and tax aggregator are therefore modelled from the specification, pinned
to the concrete behaviour the unit test asserts. -/

/-- A JavaScript value stored in a numeric field: either a number or a
non-numeric value (the test assigns the string `'not a number'` to a
quantity). -/
inductive JsNum where
  | num (value : ℚ)
  | notNum
deriving DecidableEq

/-- An invoice line as described in spec §3. -/
structure LineInput where
  id : Option String := none
  name : String
  description : Option String := none
  quantity : JsNum
  unitCode : Option String := none
  unitPrice : ℚ
  taxPercent : Option ℚ := none
deriving DecidableEq

/-- A postal address as described in spec §3. -/
structure AddressInput where
  street : String
  city : String
  county : Option String := none
  postalZone : String
  country : String
deriving DecidableEq

/-- A supplier or customer party as described in spec §3. -/
structure PartyInput where
  registrationName : String
  companyId : String
  isVatPayer : Bool := false
  address : Option AddressInput := none
  registrationNumber : Option String := none
deriving DecidableEq

/-- The invoice input as described in spec §3 (fields that the test can
blank out to `undefined` are optional). -/
structure InvoiceInput where
  invoiceNumber : String
  issueDate : Option String := none
  supplier : Option PartyInput := none
  customer : Option PartyInput := none
  lines : Option (List LineInput) := none
  paymentIban : Option String := none
deriving DecidableEq

/-! ## Claim C2: the structural validator -/

/-- Modelled from the spec: the per-line checks of the structural
validator (spec §4.1), with the exact messages asserted in
src/tests/invoiceBuilder.unit.test.ts lines 374–389; `idx` is the 1-based
line number. -/
def validateLines (idx : Nat) : List LineInput → Option String
  | [] => none
  | l :: rest =>
    if (jsTrim l.name) = "" then some ("Line " ++ toString idx ++ ": Name is required")
    else
      match l.quantity with
      | .notNum => some ("Line " ++ toString idx ++ ": Quantity must be a number")
      | .num _ =>
        if l.unitPrice < 0 then
          some ("Line " ++ toString idx ++ ": Unit price must be a non-negative number")
        else
          match l.taxPercent with
          | some p =>
            if p < 0 ∨ 100 < p then
              some ("Line " ++ toString idx ++ ": Tax percent must be between 0 and 100")
            else validateLines (idx + 1) rest
          | none => validateLines (idx + 1) rest

/-- Modelled from the spec: the structural validator run by
`buildInvoiceXml` before any output is produced (spec §4.1: fixed check
order, stop at the first failure), with the exact messages asserted in
src/tests/invoiceBuilder.unit.test.ts lines 320–398.  Returns the message
of the single `ValidationError` thrown, or `none` when the input is
structurally valid. -/
def validateInvoice (inv : InvoiceInput) : Option String :=
  if (jsTrim inv.invoiceNumber) = "" then some "Invoice number is required"
  else
    match inv.issueDate with
    | none => some "Issue date is required"
    | some _ =>
      match inv.supplier with
      | none => some "Supplier information is required"
      | some sup =>
        if (jsTrim sup.registrationName) = "" then some "Supplier registration name is required"
        else if (jsTrim sup.companyId) = "" then some "Supplier company ID is required"
        else
          match sup.address with
          | none => some "Supplier address is required"
          | some addr =>
            if (jsTrim addr.street) = "" then some "Supplier street address is required"
            else if (jsTrim addr.city) = "" then some "Supplier city is required"
            else if (jsTrim addr.postalZone) = "" then some "Supplier postal zone is required"
            else
              match inv.customer with
              | none => some "Customer information is required"
              | some cust =>
                if (jsTrim cust.registrationName) = "" then
                  some "Customer registration name is required"
                else
                  match inv.lines with
                  | none => some "Invoice lines array is required"
                  | some ls => validateLines 1 ls

/-- The base invoice of the unit test (`createBaseInvoice`,
src/tests/invoiceBuilder.unit.test.ts lines 8–50). -/
def baseInvoice : InvoiceInput where
  invoiceNumber := "INV-001"
  issueDate := some "2024-01-15"
  supplier := some
    { registrationName := "Supplier SRL"
      companyId := "160796"
      isVatPayer := true
      address := some
        { street := "Str. Supplier"
          city := "Sector 3"
          county := some "Bucuresti"
          postalZone := "010101"
          country := "Romania" } }
  customer := some
    { registrationName := "Customer SRL"
      companyId := "RO87654321"
      address := some
        { street := "Str. Customer"
          city := "Cluj-Napoca"
          county := some "Cluj"
          postalZone := "400000"
          country := "Romania" } }
  lines := some
    [{ id := some "custom-line"
       name := "Product with tax"
       description := some "First product"
       quantity := .num 2
       unitCode := some "HUR"
       unitPrice := 50
       taxPercent := some 19 },
     { name := "Service without tax"
       quantity := .num 1
       unitPrice := 10 }]

/-- Update the supplier of an invoice. -/
def withSupplier (inv : InvoiceInput) (f : PartyInput → PartyInput) : InvoiceInput :=
  { inv with supplier := inv.supplier.map f }

/-- Update the supplier address of an invoice. -/
def withSupplierAddress (inv : InvoiceInput) (f : AddressInput → AddressInput) : InvoiceInput :=
  withSupplier inv (fun sup => { sup with address := sup.address.map f })

/-- Update the customer of an invoice. -/
def withCustomer (inv : InvoiceInput) (f : PartyInput → PartyInput) : InvoiceInput :=
  { inv with customer := inv.customer.map f }

/-- Update the first invoice line. -/
def withFirstLine (inv : InvoiceInput) (f : LineInput → LineInput) : InvoiceInput :=
  { inv with
    lines := inv.lines.map (fun ls =>
      match ls with
      | [] => []
      | l :: rest => f l :: rest) }

/-- C2: the structural validator accepts the test's base invoice, and
each of the sixteen single-field mutations of the unit test (lines
320–398) produces exactly the corresponding documented message; when two
defects are present, the earlier check in the documented order wins. -/
theorem validateInvoice_messages :
    validateInvoice baseInvoice = none ∧
    validateInvoice { baseInvoice with invoiceNumber := " " } =
      some "Invoice number is required" ∧
    validateInvoice { baseInvoice with issueDate := none } =
      some "Issue date is required" ∧
    validateInvoice { baseInvoice with supplier := none } =
      some "Supplier information is required" ∧
    validateInvoice (withSupplier baseInvoice (fun s => { s with registrationName := " " })) =
      some "Supplier registration name is required" ∧
    validateInvoice (withSupplier baseInvoice (fun s => { s with companyId := " " })) =
      some "Supplier company ID is required" ∧
    validateInvoice (withSupplier baseInvoice (fun s => { s with address := none })) =
      some "Supplier address is required" ∧
    validateInvoice (withSupplierAddress baseInvoice (fun a => { a with street := " " })) =
      some "Supplier street address is required" ∧
    validateInvoice (withSupplierAddress baseInvoice (fun a => { a with city := "" })) =
      some "Supplier city is required" ∧
    validateInvoice (withSupplierAddress baseInvoice (fun a => { a with postalZone := "" })) =
      some "Supplier postal zone is required" ∧
    validateInvoice { baseInvoice with customer := none } =
      some "Customer information is required" ∧
    validateInvoice (withCustomer baseInvoice (fun c => { c with registrationName := "" })) =
      some "Customer registration name is required" ∧
    validateInvoice { baseInvoice with lines := none } =
      some "Invoice lines array is required" ∧
    validateInvoice (withFirstLine baseInvoice (fun l => { l with name := "" })) =
      some "Line 1: Name is required" ∧
    validateInvoice (withFirstLine baseInvoice (fun l => { l with quantity := .notNum })) =
      some "Line 1: Quantity must be a number" ∧
    validateInvoice (withFirstLine baseInvoice (fun l => { l with unitPrice := -1 })) =
      some "Line 1: Unit price must be a non-negative number" ∧
    validateInvoice (withFirstLine baseInvoice (fun l => { l with taxPercent := some 150 })) =
      some "Line 1: Tax percent must be between 0 and 100" ∧
    validateInvoice { baseInvoice with invoiceNumber := " ", supplier := none } =
      some "Invoice number is required" := by
  repeat' apply And.intro
  all_goals decide

/-! ## Claim C1: the tax aggregator -/

/-- Rounding to 2 decimal places, half away from zero (spec §4.4). -/
def round2 (x : ℚ) : ℚ :=
  if 0 ≤ x then ((⌊x * 100 + 1 / 2⌋ : ℤ) : ℚ) / 100
  else -(((⌊-x * 100 + 1 / 2⌋ : ℤ) : ℚ) / 100)

/-- Evaluation rule for `round2` on non-negative inputs: if the integer
`n` satisfies `n ≤ x * 100 + 1/2 < n + 1` then `round2 x = n / 100`. -/
theorem round2_nonneg_eq (x : ℚ) (n : ℤ) (hx : 0 ≤ x)
    (h1 : (n : ℚ) ≤ x * 100 + 1 / 2) (h2 : x * 100 + 1 / 2 < n + 1) :
    round2 x = (n : ℚ) / 100 := by
  rw [round2, if_pos hx, Int.floor_eq_iff.mpr ⟨h1, by exact_mod_cast h2⟩]

/-- The per-line amount exactly as the specification and claim C1 word
it: `round2(quantity × unitPrice)`. -/
def lineAmountSpec (quantity unitPrice : ℚ) : ℚ := round2 (quantity * unitPrice)

/-- Modelled from the spec: the per-line amount computed by the tax
aggregator of `src/ubl/InvoiceBuilder.ts` (not under `src/`).  Spec §4.4
states `lineAmount = round2(quantity × unitPrice)`, but the repository's
own unit test (src/tests/invoiceBuilder.unit.test.ts line 116) fixes the
line extension amount for quantity 2 and unit price 10.345 at 20.70,
while `round2(2 × 10.345) = 20.69`; the code must therefore round the
unit price to 2 decimal places before multiplying, which reproduces
every amount the test asserts. -/
def lineAmount (quantity unitPrice : ℚ) : ℚ := round2 (quantity * round2 unitPrice)

/-- The tax category assigned to a line (spec §4.4 / §3). -/
inductive TaxCategory where
  | standard (percent : ℚ)
  | zeroRated
  | outsideScope
deriving DecidableEq

/-- Modelled from the spec: tax category assignment per line (spec §4.4):
a non-VAT-payer supplier gives Outside-scope, a zero (or absent) percent
gives Zero-rated, otherwise Standard-rated at the given percent. -/
def lineCategory (supplierIsVatPayer : Bool) (taxPercent : Option ℚ) : TaxCategory :=
  if ¬ supplierIsVatPayer then .outsideScope
  else if taxPercent.getD 0 = 0 then .zeroRated
  else .standard (taxPercent.getD 0)

/-- Add a line amount to the group of its category, preserving the order
of first appearance. -/
def addToGroups (groups : List (TaxCategory × ℚ)) (cat : TaxCategory) (amt : ℚ) :
    List (TaxCategory × ℚ) :=
  match groups with
  | [] => [(cat, amt)]
  | (c, t) :: rest => if c = cat then (c, t + amt) :: rest else (c, t) :: addToGroups rest cat amt

/-- Modelled from the spec: a group's tax amount (spec §4.4):
`round2(taxable × percent / 100)` for Standard-rated groups, 0
otherwise. -/
def groupTax (cat : TaxCategory) (taxable : ℚ) : ℚ :=
  match cat with
  | .standard p => round2 (taxable * p / 100)
  | _ => 0

/-- Invoice-level totals (spec §4.4). -/
structure Totals where
  taxable : ℚ
  tax : ℚ
  inclusive : ℚ
  payable : ℚ
deriving DecidableEq

/-- Modelled from the spec: the tax aggregation of spec §4.4 over a list
of `(quantity, unitPrice, taxPercent)` lines: each line's rounded amount
joins the group of its (category, percent) key; each group carries its
summed taxable amount and its rounded tax amount; the totals are the
group sums, with the tax-inclusive amount also used as the payable
amount. -/
def aggregate (supplierIsVatPayer : Bool) (lines : List (ℚ × ℚ × Option ℚ)) :
    List (TaxCategory × ℚ × ℚ) × Totals :=
  let groups := lines.foldl
    (fun gs l => addToGroups gs (lineCategory supplierIsVatPayer l.2.2) (lineAmount l.1 l.2.1))
    []
  let withTax := groups.map (fun g => (g.1, g.2, groupTax g.1 g.2))
  let taxable := (withTax.map (fun g => g.2.1)).sum
  let tax := (withTax.map (fun g => g.2.2)).sum
  ⟨withTax, ⟨taxable, tax, taxable + tax, taxable + tax⟩⟩

/-- The line extension amount the repository's unit test expects for the
line with quantity 2 and unit price 10.345
(src/tests/invoiceBuilder.unit.test.ts line 116: `20.70`). -/
def testExpectedRoundedItemAmount : ℚ := 20.70

/-- Concrete evaluation: the claimed formula gives 20.69 on the test's
first line. -/
theorem lineAmountSpec_two_charged : lineAmountSpec 2 10.345 = 20.69 := by
  rw [lineAmountSpec]
  rw [round2_nonneg_eq (2 * 10.345) 2069 (by norm_num) (by norm_num) (by norm_num)]
  norm_num

/-- Concrete evaluation: the price-first rounding gives 20.70 on the
test's first line. -/
theorem lineAmount_two_charged : lineAmount 2 10.345 = 20.70 := by
  rw [lineAmount]
  rw [round2_nonneg_eq 10.345 1035 (by norm_num) (by norm_num) (by norm_num)]
  rw [round2_nonneg_eq (2 * (((1035 : ℤ) : ℚ) / 100)) 2070 (by norm_num) (by norm_num)
    (by norm_num)]
  norm_num

/-- C1 counterexample: the claim computes `round2(2 × 10.345) = 20.69`
for the test's first line, but the repository's unit test requires the
line extension amount `20.70`; the claimed per-line formula therefore
disagrees with the code's observable behaviour at quantity 2, unit price
10.345. -/
theorem lineAmountSpec_deviates_from_test :
    lineAmountSpec 2 10.345 = 20.69 ∧
    lineAmountSpec 2 10.345 ≠ testExpectedRoundedItemAmount ∧
    lineAmount 2 10.345 = testExpectedRoundedItemAmount := by
  refine ⟨lineAmountSpec_two_charged, ?_, ?_⟩
  · rw [lineAmountSpec_two_charged, testExpectedRoundedItemAmount]
    norm_num
  · rw [lineAmount_two_charged, testExpectedRoundedItemAmount]

/-- C1 (amended): the aggregator rounds each unit price to 2 decimals
before multiplying (`lineAmount = round2(quantity × round2(unitPrice))`),
rounds each line amount individually before grouping, and computes each
group's tax as `round2(taxable × percent / 100)`; on the unit test's
lines (2 × 10.345 at 19%, 1 × 50 at 19%, 3 × 0 at 0%) this reproduces
every amount the test asserts: line amounts 20.70 and 50.00, one
Standard-19% group with taxable 70.70 and tax 13.43, one Zero-rated
group with 0.00, and totals 70.70 / 13.43 / 84.13 / 84.13. -/
theorem aggregate_matches_test :
    lineAmount 2 10.345 = 20.70 ∧
    lineAmount 1 50 = 50 ∧
    lineAmount 3 0 = 0 ∧
    aggregate true [(2, 10.345, some 19), (1, 50, some 19), (3, 0, some 0)] =
      ([(.standard 19, 70.70, 13.43), (.zeroRated, 0, 0)],
        ⟨70.70, 13.43, 84.13, 84.13⟩) ∧
    groupTax (.standard 19) 70.70 = round2 (70.70 * 19 / 100) := by
  have h2 : lineAmount 1 50 = 50 := by
    rw [lineAmount]
    rw [round2_nonneg_eq 50 5000 (by norm_num) (by norm_num) (by norm_num)]
    rw [round2_nonneg_eq (1 * (((5000 : ℤ) : ℚ) / 100)) 5000 (by norm_num) (by norm_num)
      (by norm_num)]
    norm_num
  have h3 : lineAmount 3 0 = 0 := by
    rw [lineAmount]
    rw [round2_nonneg_eq 0 0 (by norm_num) (by norm_num) (by norm_num)]
    rw [round2_nonneg_eq (3 * (((0 : ℤ) : ℚ) / 100)) 0 (by norm_num) (by norm_num)
      (by norm_num)]
    norm_num
  have hg : groupTax (TaxCategory.standard 19) (70.70 : ℚ) = 13.43 := by
    show round2 (70.70 * 19 / 100) = 13.43
    rw [round2_nonneg_eq (70.70 * 19 / 100) 1343 (by norm_num) (by norm_num) (by norm_num)]
    norm_num
  have hc1 : lineCategory true (some (19 : ℚ)) = TaxCategory.standard 19 := by
    rw [lineCategory]
    norm_num
  have hc3 : lineCategory true (some (0 : ℚ)) = TaxCategory.zeroRated := by
    rw [lineCategory]
    norm_num
  have hg2 : round2 ((13433 : ℚ) / 1000) = 1343 / 100 := by
    rw [round2_nonneg_eq ((13433 : ℚ) / 1000) 1343 (by norm_num) (by norm_num) (by norm_num)]
    norm_num
  have h1q := lineAmount_two_charged
  norm_num at h1q
  have hne : TaxCategory.standard (19 : ℚ) ≠ TaxCategory.zeroRated :=
    fun hcon => TaxCategory.noConfusion hcon
  refine ⟨lineAmount_two_charged, h2, h3, ?_, rfl⟩
  show aggregate true [(2, 10.345, some 19), (1, 50, some 19), (3, 0, some 0)] = _
  rw [aggregate]
  norm_num [List.foldl, addToGroups, hc1, hc3, h1q, h2, h3, groupTax, hg2, hne]

end EFactura

